import Mathlib

/-!
# Verification of the Social-Housing-Complaints-Letter-Bot core pipeline

Shallow embedding of the knowledge ingestion and retrieval pipeline of the
repository:

* `scripts/embed.mjs` (ingestion: whitespace-normalised text → chunking →
  per-source accumulation → de-duplication → embedding/upsert), and
* `src/app/api/chat/route.ts` (working-day arithmetic, timeline-breach
  calculation, issue classification, multi-query retrieval merge, and the
  legal-context formatter).

Texts are modelled as `List Char` (JS strings indexed by code unit; all
constants in play are ASCII so the identification is exact).  Dates are
modelled at day granularity as `Nat` — the number of days since the JS epoch
1970-01-01 (a Thursday, so `getDay()` of day `d` is `(d + 4) % 7`).  All
definitions are computable and follow the cited source lines.
-/

namespace HousingBot

/-! ## Chunker — `chunkText`, `scripts/embed.mjs` lines 120–126

```js
const CHUNK_SIZE = 1000;
const CHUNK_OVERLAP = 200;
function chunkText(text) {
  const chunks = [];
  for (let i = 0; i < text.length; i += CHUNK_SIZE - CHUNK_OVERLAP) {
    chunks.push(text.slice(i, i + CHUNK_SIZE));
  }
  return chunks;
}
```

`text.slice(i, i + CHUNK_SIZE)` is `(text.drop i).take CHUNK_SIZE`.
The loop advances by `CHUNK_SIZE - CHUNK_OVERLAP = 800` each iteration, so it
terminates; `chunkTextAux` is the loop with the source's constants inlined. -/

/-- The chunking loop of `chunkText` from index `i`, with the source's
configured `CHUNK_SIZE = 1000` and `CHUNK_OVERLAP = 200` inlined
(step `= 1000 - 200 = 800`). -/
def chunkTextAux (text : List Char) (i : Nat) : List (List Char) :=
  if i < text.length then
    (text.drop i).take 1000 :: chunkTextAux text (i + 800)
  else
    []
termination_by text.length - i
decreasing_by
  simp_wf
  omega

/-- `chunkText` of `scripts/embed.mjs` (lines 120–126): the chunk list of a
text under the configured `CHUNK_SIZE = 1000`, `CHUNK_OVERLAP = 200`. -/
def chunkText (text : List Char) : List (List Char) :=
  chunkTextAux text 0

/-- The same source loop with `CHUNK_SIZE` and `CHUNK_OVERLAP` kept as
parameters `size` and `overlap`, and an explicit fuel bound standing for the
number of loop iterations executed so far: the loop body pushes
`text.slice(i, i + size)` and advances `i` by `size - overlap` exactly as in
the source, and there is no validation of `overlap < size` anywhere in
`scripts/embed.mjs` — no `ConfigError` (or any other error) is ever raised by
`chunkText`.  `none` means the loop has not terminated within `fuel`
iterations. -/
def chunkLoopFuel (size overlap : Nat) (text : List Char) (i : Nat) :
    Nat → Option (List (List Char))
  | 0 => none
  | fuel + 1 =>
    if i < text.length then
      match chunkLoopFuel size overlap text (i + (size - overlap)) fuel with
      | some rest => some ((text.drop i).take size :: rest)
      | none => none
    else
      some []

/-! ## Ingestion source loop — `run`, `scripts/embed.mjs` lines 129–155

Each source yields either an extraction failure (the `catch` arm, which logs
and continues) or an extracted, whitespace-normalised text.  The loop body
(lines 144–151):

```js
if (!text || text.length < 50) { console.warn(...); continue; }
const chunks = chunkText(text);
chunks.forEach((c) => allChunks.push({ source: src, content: c }));
```

`!text` holds exactly for the empty string, whose length `0 < 50`, so the
guard is equivalent to `text.length < 50`. -/

/-- A chunk accumulated by the ingestion pipeline: source identifier plus
chunk content (`{ source: src, content: c }` in `scripts/embed.mjs`). -/
structure SourceChunk where
  source : List Char
  content : List Char
deriving DecidableEq

/-- One step of the `run` source loop of `scripts/embed.mjs` (lines 134–155):
a failed extraction contributes nothing, a text that is empty or shorter than
50 characters is skipped, otherwise the source's chunks are appended. -/
def accumulateSource (allChunks : List SourceChunk)
    (src : List Char × Except (List Char) (List Char)) : List SourceChunk :=
  match src.2 with
  | Except.error _ => allChunks
  | Except.ok text =>
    if text.length < 50 then
      allChunks
    else
      allChunks ++ (chunkText text).map (fun c => ⟨src.1, c⟩)

/-- The chunk-accumulation phase of `run` in `scripts/embed.mjs`
(lines 132–155): fold the source loop over the source list, starting from the
empty `allChunks`.  Each source is paired with the outcome of its extraction
(`Except.error` for a thrown fetch/extraction failure caught by the
`try`/`catch`, `Except.ok text` for a successful extraction). -/
def collectChunks (sources : List (List Char × Except (List Char) (List Char))) :
    List SourceChunk :=
  sources.foldl accumulateSource []

/-! ## Working-day arithmetic — `calculateWorkingDays`, `route.ts` lines 20–34

```js
function calculateWorkingDays(startDate, endDate) {
  let workingDays = 0;
  let currentDate = new Date(startDate);
  while (currentDate <= endDate) {
    const dayOfWeek = currentDate.getDay();
    if (dayOfWeek !== 0 && dayOfWeek !== 6) { workingDays++; }
    currentDate.setDate(currentDate.getDate() + 1);
  }
  return workingDays;
}
```

Day `d` (days since 1970-01-01, a Thursday) has `getDay() = (d + 4) % 7`,
with `0` = Sunday and `6` = Saturday. -/

/-- `getDay()` of the JS `Date` that is `d` whole days after 1970-01-01:
`0` is Sunday, …, `6` is Saturday; the epoch itself is a Thursday (`4`). -/
def dayOfWeek (d : Nat) : Nat :=
  (d + 4) % 7

/-- `calculateWorkingDays` of `route.ts` (lines 20–34): the loop visits the
days `startDate, startDate + 1, …, endDate` (inclusive on both ends; no
iteration when `startDate > endDate`) and counts those whose `getDay()` is
neither `0` (Sunday) nor `6` (Saturday). -/
def calculateWorkingDays (startDate endDate : Nat) : Nat :=
  ((List.range (endDate + 1 - startDate)).map (fun k => startDate + k)).countP
    (fun d => !(dayOfWeek d == 0 || dayOfWeek d == 6))

/-! ## Calendar constants

`route.ts` line 214 builds `new Date('2025-10-27')`, the Awaab's-Law
enforcement date, and compares it against `today`.  We compute its day number
from the civil calendar. -/

/-- Leap-year test of the Gregorian calendar. -/
def isLeapYear (y : Nat) : Bool :=
  (y % 4 == 0 && y % 100 != 0) || y % 400 == 0

/-- Length of month `m` (1-based) of year `y`. -/
def daysInMonth (y m : Nat) : Nat :=
  if m = 2 then (if isLeapYear y then 29 else 28)
  else if m = 4 ∨ m = 6 ∨ m = 9 ∨ m = 11 then 30
  else 31

/-- Day number (days since 1970-01-01) of the civil date `y-m-d`
(`m`, `d` 1-based), for dates on or after the epoch. -/
def daysFromEpoch (y m d : Nat) : Nat :=
  (List.range (y - 1970)).foldl
      (fun acc k => acc + (if isLeapYear (1970 + k) then 366 else 365)) 0
    + (List.range (m - 1)).foldl (fun acc k => acc + daysInMonth y (k + 1)) 0
    + (d - 1)

/-- `new Date('2025-10-27')` of `route.ts` line 214 — the Awaab's-Law
enforcement date, as a day number. -/
def awaabsLawEnforcementDate : Nat :=
  daysFromEpoch 2025 10 27

/-! ## Breach calculator — `calculateTimelineBreaches`, `route.ts` lines 183–266 -/

/-- A breach entry pushed onto `breaches` by `calculateTimelineBreaches`. -/
structure BreachRecord where
  regulation : String
  requirement : String
  elapsed : Nat
  unit : String
  breached : Bool
  severity : String
deriving DecidableEq

/-- The object returned by `calculateTimelineBreaches` (lines 259–265). -/
structure BreachReport where
  reportedDate : Nat
  workingDaysElapsed : Nat
  calendarDaysElapsed : Nat
  breaches : List BreachRecord
  hasBreaches : Bool
deriving DecidableEq

/-- `calculateTimelineBreaches` of `route.ts` (lines 183–266).  `today` is
`new Date()` at day granularity; `calendarDaysElapsed` is
`Math.floor((today - reportedDate) / 86400000)`, which at day granularity is
truncated subtraction.  The five `if` blocks push their records onto
`breaches` in source order; the Awaab's-Law `if`/`else if` pair (lines
215–233) is a single two-way branch.  `hasBreaches` is
`breaches.length > 0` (line 264). -/
def calculateTimelineBreaches (reportedDate today : Nat) (issueType : String)
    (childrenAffected : Bool) : BreachReport :=
  let workingDaysElapsed := calculateWorkingDays reportedDate today
  let calendarDaysElapsed := today - reportedDate
  let breaches : List BreachRecord :=
    (if workingDaysElapsed > 5 then
      [⟨"Housing Ombudsman Code Section 4.2",
        "acknowledge complaint within 5 working days",
        workingDaysElapsed, "working days", true, "moderate"⟩]
    else [])
    ++ (if workingDaysElapsed > 10 then
      [⟨"Housing Ombudsman Code Section 4.2",
        "provide full response within 10 working days",
        workingDaysElapsed, "working days", true, "serious"⟩]
    else [])
    ++ (if issueType = "damp_mould" ∧ childrenAffected = true
          ∧ calendarDaysElapsed > 14 ∧ awaabsLawEnforcementDate ≤ today then
      [⟨"Social Housing Regulation Act 2023 (Awaab's Law)",
        "investigate damp and mould affecting children within 14 days",
        calendarDaysElapsed, "calendar days", true, "critical"⟩]
    else if issueType = "damp_mould" ∧ childrenAffected = true
          ∧ today < awaabsLawEnforcementDate then
      [⟨"Social Housing Regulation Act 2023 (Awaab's Law)",
        "investigate damp and mould affecting children within 14 days (effective from October 27, 2025)",
        calendarDaysElapsed, "calendar days", false, "impending"⟩]
    else [])
    ++ (if issueType = "heating" ∧ calendarDaysElapsed > 1 then
      [⟨"Section 11 of the Landlord and Tenant Act 1985",
        "complete emergency heating repairs within 24 hours",
        calendarDaysElapsed, "calendar days", true, "serious"⟩]
    else [])
    ++ (if issueType = "repairs" ∧ calendarDaysElapsed > 28 then
      [⟨"Section 11 of the Landlord and Tenant Act 1985",
        "complete non-emergency repairs within reasonable time (typically 28 days)",
        calendarDaysElapsed, "calendar days", true, "moderate"⟩]
    else [])
  { reportedDate := reportedDate
    workingDaysElapsed := workingDaysElapsed
    calendarDaysElapsed := calendarDaysElapsed
    breaches := breaches
    hasBreaches := decide (breaches.length > 0) }

/-! ## Keyword matching and issue classification — `route.ts` lines 161–177

`extractDatesFromConversation` lower-cases the joined conversation text and
classifies the issue type by `String.prototype.includes` checks in a fixed
`if`/`else if` order (lines 161–171). -/

/-- `startsWithList text kw` — `text` begins with `kw`. -/
def startsWithList : List Char → List Char → Bool
  | _, [] => true
  | [], _ :: _ => false
  | c :: cs, k :: ks => c == k && startsWithList cs ks

/-- JS `text.includes(kw)`: `kw` occurs contiguously somewhere in `text`. -/
def containsSub : List Char → List Char → Bool
  | [], kw => kw.isEmpty
  | c :: cs, kw => startsWithList (c :: cs) kw || containsSub cs kw

/-- The issue-type classification of `extractDatesFromConversation`
(`route.ts` lines 161–171), applied to the lower-cased conversation text:

```js
let issueType = '';
if (t.includes('damp') || t.includes('mould') || t.includes('mold')) issueType = 'damp_mould';
else if (t.includes('repair') || t.includes('leak') || t.includes('broken')) issueType = 'repairs';
else if (t.includes('heating') || t.includes('boiler') || t.includes('cold')) issueType = 'heating';
else issueType = 'general';
``` -/
def classifyIssue (conversationText : List Char) : String :=
  if containsSub conversationText "damp".toList
      || containsSub conversationText "mould".toList
      || containsSub conversationText "mold".toList then
    "damp_mould"
  else if containsSub conversationText "repair".toList
      || containsSub conversationText "leak".toList
      || containsSub conversationText "broken".toList then
    "repairs"
  else if containsSub conversationText "heating".toList
      || containsSub conversationText "boiler".toList
      || containsSub conversationText "cold".toList then
    "heating"
  else
    "general"

/-! ## Cross-reference retrieval merge — `searchLegalKnowledge`,
`route.ts` lines 595–744

The network interactions are the primary `match_documents` RPC (which either
errors — `if (error) { ...; return []; }`, lines 613–616 — or returns rows)
and one `match_documents` RPC per cross-reference embedding, whose `data`
field is either `null` (failed search, the `if (crossRefData)` guard at line
731 skips it) or a list of rows.  We embed the function over these responses:
`primary` is the outcome of the primary search and `crossResps` the list of
auxiliary search responses, in order.  The merge loop (lines 724–736):

```js
for (const embeddingResponse of crossReferenceEmbeddings) {
  const { data: crossRefData } = await supabase.rpc('match_documents', ...);
  if (crossRefData) {
    const existingIds = new Set(results.map((r) => r.id));
    const newDocs = crossRefData.filter((doc) => !existingIds.has(doc.id));
    results = [...results, ...newDocs];
  }
}
return results.slice(0, limit + 8);
``` -/

/-- A row returned by the `match_documents` RPC / consumed by
`formatLegalContext`: identifier, content, and the `metadata.source` and
`metadata.url` fields (absent metadata modelled as `none`). -/
structure RetrievalDoc where
  id : Nat
  content : String
  metadataSource : Option String
  metadataUrl : Option String
deriving DecidableEq

/-- One iteration of the cross-reference merge loop (`route.ts` lines
724–736): a `null` response (`none`) leaves `results` unchanged; otherwise
the new rows whose `id` is not already present are appended. -/
def mergeCrossRef (results : List RetrievalDoc)
    (crossRefData : Option (List RetrievalDoc)) : List RetrievalDoc :=
  match crossRefData with
  | none => results
  | some docs =>
    results ++ docs.filter (fun doc => !(decide (doc.id ∈ results.map RetrievalDoc.id)))

/-- `searchLegalKnowledge` of `route.ts` (lines 595–744), over the store
responses: a primary-search error returns `[]` at once (lines 613–616, before
any cross-referencing); otherwise the cross-reference responses are merged in
order and the result is capped by `slice(0, limit + 8)` (line 739). -/
def searchLegalKnowledge (primary : Except String (List RetrievalDoc))
    (crossResps : List (Option (List RetrievalDoc))) (limit : Nat) :
    List RetrievalDoc :=
  match primary with
  | Except.error _ => []
  | Except.ok data => ((crossResps.foldl mergeCrossRef data).take (limit + 8))

/-- Spec-side definition, for the refinement statement of the merge: collapse
a row list to its first occurrence per `id`, scanning left to right from the
accumulator `acc`. -/
def dedupByIdAux (acc : List RetrievalDoc) (docs : List RetrievalDoc) :
    List RetrievalDoc :=
  docs.foldl
    (fun a doc => if doc.id ∈ a.map RetrievalDoc.id then a else a ++ [doc]) acc

/-- Spec-side definition: deduplicate a row list by `id`, first occurrence
winning. -/
def dedupById (docs : List RetrievalDoc) : List RetrievalDoc :=
  dedupByIdAux [] docs

/-- A single search response is a well-formed result set: its rows carry
pairwise distinct identifiers (a `match_documents` call returns distinct
store rows).  A failed search (`none`) has no rows. -/
def batchIdsNodup (b : Option (List RetrievalDoc)) : Prop :=
  match b with
  | none => True
  | some docs => (docs.map RetrievalDoc.id).Nodup

instance (b : Option (List RetrievalDoc)) : Decidable (batchIdsNodup b) :=
  match b with
  | none => isTrue trivial
  | some _ => List.nodupDecidable _

/-! ## Context formatter — `formatLegalContext`, `route.ts` lines 747–807

`getCurrentDateUK()` reads the real clock, so the formatter is embedded with
the rendered current-date string as a parameter.  `reportedDate.toDateString()`
renders a human-readable date; at day granularity we render the day number —
no claim checked here depends on that rendering.  The structure (early
return, date line, breach section, legislation-updates/established split,
closing instruction) follows the source line by line. -/

/-- The breach lines rendered by the `forEach` at `route.ts` lines 768–773,
one numbered block per breach (`i` is 0-based, rendered as `i + 1`). -/
def formatBreachLines (breaches : List BreachRecord) : String :=
  (breaches.enum.map (fun p =>
      toString (p.1 + 1) ++ ". " ++ p.2.regulation ++ "\n"
        ++ "   Required: " ++ p.2.requirement ++ "\n"
        ++ "   Elapsed: " ++ toString p.2.elapsed ++ " " ++ p.2.unit
        ++ " (" ++ (if p.2.breached then "BREACH" else "IMPENDING") ++ ")\n"
        ++ "   Severity: " ++ p.2.severity.toUpper ++ "\n\n")).foldl
    (fun acc s => acc ++ s) ""

/-- The numbered source blocks rendered at `route.ts` lines 789–791 for
legislation updates (`From:` is `metadata?.url`). -/
def formatLegislationBlocks (docs : List RetrievalDoc) : String :=
  String.intercalate "\n\n"
    (docs.enum.map (fun p =>
      "[LEGISLATION UPDATE " ++ toString (p.1 + 1) ++ "]\nFrom: "
        ++ p.2.metadataUrl.getD "Unknown" ++ "\n" ++ p.2.content))

/-- The numbered source blocks rendered at `route.ts` lines 798–800 for
established legal knowledge (`From:` is `metadata?.source`). -/
def formatKnowledgeBlocks (docs : List RetrievalDoc) : String :=
  String.intercalate "\n\n"
    (docs.enum.map (fun p =>
      "[LEGAL SOURCE " ++ toString (p.1 + 1) ++ "]\nFrom: "
        ++ p.2.metadataSource.getD "Unknown" ++ "\n" ++ p.2.content))

/-- `formatLegalContext` of `route.ts` (lines 747–807). -/
def formatLegalContext (currentDate : String) (legalDocs : List RetrievalDoc)
    (timelineAnalysis : Option BreachReport) : String :=
  if legalDocs.length = 0 ∧ timelineAnalysis = none then
    ""
  else
    let context :=
      "CURRENT DATE: " ++ currentDate
        ++ " - Use this for all date references and calculations.\n\n"
    let context :=
      match timelineAnalysis with
      | some t =>
        if t.hasBreaches then
          context
            ++ "🚨 CRITICAL TIMELINE BREACH ANALYSIS:\n"
            ++ "Report Date: " ++ toString t.reportedDate ++ "\n"
            ++ "Current Date: " ++ currentDate ++ "\n"
            ++ "Working Days Elapsed: " ++ toString t.workingDaysElapsed ++ "\n"
            ++ "Calendar Days Elapsed: " ++ toString t.calendarDaysElapsed ++ "\n\n"
            ++ "REGULATORY BREACHES IDENTIFIED:\n"
            ++ formatBreachLines t.breaches
            ++ "IMPORTANT: These timeline breaches must be prominently featured in any complaint letter as they provide concrete evidence of regulatory non-compliance.\n\n"
        else context
      | none => context
    if legalDocs.length > 0 then
      let legislationSources :=
        legalDocs.filter (fun doc => doc.metadataSource == some "legislation_search")
      let otherSources :=
        legalDocs.filter (fun doc => !(doc.metadataSource == some "legislation_search"))
      let sourcesContext :=
        (if legislationSources.length > 0 then
          "\n🚨 RECENT LEGISLATION UPDATES (" ++ toString legislationSources.length
            ++ " sources):\n" ++ formatLegislationBlocks legislationSources
            ++ "\n\nIMPORTANT: These are recent/current legislative updates that must be prominently referenced if relevant to the case.\n"
        else "")
        ++ (if otherSources.length > 0 then
          "\n📚 ESTABLISHED LEGAL KNOWLEDGE (" ++ toString otherSources.length
            ++ " sources):\n" ++ formatKnowledgeBlocks otherSources
        else "")
      context ++ sourcesContext
        ++ "\n\nUSE THIS LEGAL KNOWLEDGE extensively with specific citations. Always reference exact legal provisions, timeframes, and obligations. For example: \"Under Section 11 of the Landlord and Tenant Act 1985, they must...\" or \"The Housing Ombudsman Code Section 4.2 requires response within 10 working days\" or \"Awaab's Law (Social Housing Regulation Act 2023) mandates investigation within 14 days\". Cross-reference multiple sources to build the strongest possible legal case. Be precise about which laws apply and what the exact requirements are. MANDATORY: Every legal claim must cite 2-3 different statutory authorities minimum. Build layered arguments showing how issues violate multiple regulations simultaneously."
    else
      context

/-! # Theorems -/

/-! ## Merge lemmas shared by the retrieval claims -/

/-- Merging a batch with pairwise-distinct ids into an accumulator equals
appending the batch rows whose id is not already present. -/
theorem dedupByIdAux_eq_append_filter (docs : List RetrievalDoc)
    (res : List RetrievalDoc) (h : (docs.map RetrievalDoc.id).Nodup) :
    dedupByIdAux res docs
      = res ++ docs.filter
          (fun d => !(decide (d.id ∈ res.map RetrievalDoc.id))) := by
  induction docs generalizing res with
  | nil => simp [dedupByIdAux]
  | cons d ds ih =>
    simp only [List.map_cons, List.nodup_cons] at h
    obtain ⟨hd, hds⟩ := h
    have hcons : dedupByIdAux res (d :: ds)
        = dedupByIdAux
            (if d.id ∈ res.map RetrievalDoc.id then res else res ++ [d]) ds := by
      simp [dedupByIdAux, List.foldl_cons]
    rw [hcons]
    by_cases hmem : d.id ∈ res.map RetrievalDoc.id
    · rw [if_pos hmem, ih _ hds, List.filter_cons, if_neg (by simp [hmem])]
    · rw [if_neg hmem, ih _ hds]
      have hfil : ds.filter
            (fun x => !(decide (x.id ∈ (res ++ [d]).map RetrievalDoc.id)))
          = ds.filter (fun x => !(decide (x.id ∈ res.map RetrievalDoc.id))) := by
        apply List.filter_congr
        intro x hx
        have hxid : x.id ∈ ds.map RetrievalDoc.id :=
          List.mem_map_of_mem _ hx
        have hxne : x.id ≠ d.id := fun he => hd (he ▸ hxid)
        simp [List.map_append, List.mem_append, hxne]
      rw [hfil, List.filter_cons, if_pos (by simp [hmem])]
      simp [List.append_assoc]

/-- The cross-reference merge loop equals first-occurrence deduplication of
the concatenated successful batches, relative to the primary rows. -/
theorem foldl_mergeCrossRef_eq_dedup
    (batches : List (Option (List RetrievalDoc))) (data : List RetrievalDoc)
    (hb : ∀ b ∈ batches, batchIdsNodup b) :
    batches.foldl mergeCrossRef data
      = dedupByIdAux data (batches.filterMap (fun x => x)).flatten := by
  induction batches generalizing data with
  | nil => simp [dedupByIdAux]
  | cons b rest ih =>
    have hbrest : ∀ x ∈ rest, batchIdsNodup x :=
      fun x hx => hb x (List.mem_cons_of_mem _ hx)
    cases b with
    | none =>
      simp only [List.foldl_cons]
      rw [show mergeCrossRef data none = data from rfl, ih _ hbrest]
      simp [List.filterMap_cons]
    | some docs =>
      have hdocs : (docs.map RetrievalDoc.id).Nodup :=
        hb (some docs) (List.mem_cons_self _ _)
      simp only [List.foldl_cons]
      rw [show mergeCrossRef data (some docs)
          = data ++ docs.filter
              (fun d => !(decide (d.id ∈ data.map RetrievalDoc.id))) from rfl]
      rw [← dedupByIdAux_eq_append_filter docs data hdocs, ih _ hbrest]
      simp [List.filterMap_cons, dedupByIdAux, List.foldl_append]

/-- First-occurrence deduplication from a duplicate-free accumulator yields a
list with pairwise distinct ids. -/
theorem dedupByIdAux_nodup (docs : List RetrievalDoc) (res : List RetrievalDoc)
    (h : (res.map RetrievalDoc.id).Nodup) :
    ((dedupByIdAux res docs).map RetrievalDoc.id).Nodup := by
  induction docs generalizing res with
  | nil => simpa [dedupByIdAux]
  | cons d ds ih =>
    have hcons : dedupByIdAux res (d :: ds)
        = dedupByIdAux
            (if d.id ∈ res.map RetrievalDoc.id then res else res ++ [d]) ds := by
      simp [dedupByIdAux, List.foldl_cons]
    rw [hcons]
    by_cases hmem : d.id ∈ res.map RetrievalDoc.id
    · rw [if_pos hmem]
      exact ih _ h
    · rw [if_neg hmem]
      apply ih
      simp [List.map_append, List.nodup_append, h, hmem]

/-- C1 — counterexample.  The claim states that `formatLegalContext([], null)`
returns a **non-empty** string containing the current-date line.  At a
concrete current date it returns the empty string: the early return at
`route.ts` lines 750–753 fires before the date line is built. -/
theorem c1_counterexample :
    formatLegalContext "12 October 2026" [] none = "" := by
  rfl

/-- C1 (amended) — for the empty state (no retrieved documents and no breach
report) the formatter returns the **empty** string for every current date: no
date line, no breach section, no document sections, and no exception (the
embedding is a total function). -/
theorem c1_empty_state_formatting (currentDate : String) :
    formatLegalContext currentDate [] none = "" := by
  rfl

/-- C2 — counterexample.  The claim states that every text with
`text.length < size = 1000` yields exactly one chunk equal to the whole text.
The empty text yields no chunk at all, and a text of length `801 < 1000`
yields two chunks (the loop advances by `size - overlap = 800 < 801`). -/
theorem c2_counterexample :
    chunkText [] = [] ∧
    (List.replicate 801 'a').length < 1000 ∧
    (chunkText (List.replicate 801 'a')).length = 2 := by
  refine ⟨?_, by rw [List.length_replicate]; omega, ?_⟩
  · rw [chunkText, chunkTextAux.eq_def, if_neg (by simp)]
  · rw [chunkText, chunkTextAux.eq_def]
    simp only [List.length_replicate]
    rw [if_pos (by omega)]
    rw [chunkTextAux.eq_def]
    simp only [List.length_replicate]
    rw [if_pos (by omega)]
    rw [chunkTextAux.eq_def]
    simp only [List.length_replicate]
    rw [if_neg (by omega)]
    rfl

/-- C2 (amended) — with the configured `CHUNK_SIZE = 1000` and
`CHUNK_OVERLAP = 200`, every **non-empty** text whose length is at most
`CHUNK_SIZE - CHUNK_OVERLAP = 800` yields exactly one chunk, equal to the
whole text. -/
theorem c2_single_chunk (text : List Char) (h1 : 0 < text.length)
    (h2 : text.length ≤ 800) : chunkText text = [text] := by
  rw [chunkText, chunkTextAux.eq_def, if_pos h1, chunkTextAux.eq_def,
    if_neg (show ¬ 0 + 800 < text.length by omega)]
  simp [List.take_of_length_le (show text.length ≤ 1000 by omega)]

/-- C2 (amended) — witness: the five-character text `"hello"` yields exactly
one chunk, the text itself. -/
theorem c2_single_chunk_witness :
    chunkText "hello".toList = ["hello".toList] :=
  c2_single_chunk "hello".toList (by decide) (by decide)

/-- C3 — the spec requires the chunker to validate `overlap < size` and fail
fast with a `ConfigError`; `scripts/embed.mjs` performs no such validation
(no `ConfigError` exists anywhere in the script), and with a configuration
where `overlap ≥ size` the loop index advances by `size - overlap = 0`, so
the loop never terminates on any non-empty text: under `size = 1`,
`overlap = 1`, on the text `"ab"`, the loop exhausts every fuel bound without
finishing (it hangs instead of failing fast). -/
theorem c3_overlap_ge_size_never_terminates (fuel : Nat) :
    chunkLoopFuel 1 1 "ab".toList 0 fuel = none := by
  induction fuel with
  | zero => rfl
  | succ n ih =>
    have ih' : chunkLoopFuel 1 1 ['a', 'b'] 0 n = none := ih
    simp [chunkLoopFuel, ih']

/-- C4 — vulnerable-hazard gating: for `issueType = "damp_mould"`,
`childrenAffected = true` and `calendarDaysElapsed = 20`, if "now" is before
the Awaab's-Law enforcement date the report contains exactly one record of
severity `"impending"` (with `breached = false`) and no `"critical"` record,
and `hasBreaches` is still `true`; if "now" is on or after the enforcement
date it instead contains exactly one `"critical"` record (with
`breached = true`, since `20 > 14`) and no `"impending"` record. -/
theorem c4_vulnerable_hazard_gating (reported today : Nat)
    (h : today = reported + 20) :
    (today < awaabsLawEnforcementDate →
      (calculateTimelineBreaches reported today "damp_mould" true).breaches.filter
          (fun b => b.severity == "impending")
        = [⟨"Social Housing Regulation Act 2023 (Awaab's Law)",
            "investigate damp and mould affecting children within 14 days (effective from October 27, 2025)",
            20, "calendar days", false, "impending"⟩]
      ∧ (calculateTimelineBreaches reported today "damp_mould" true).breaches.filter
          (fun b => b.severity == "critical") = []
      ∧ (calculateTimelineBreaches reported today "damp_mould" true).hasBreaches
          = true) ∧
    (awaabsLawEnforcementDate ≤ today →
      (calculateTimelineBreaches reported today "damp_mould" true).breaches.filter
          (fun b => b.severity == "critical")
        = [⟨"Social Housing Regulation Act 2023 (Awaab's Law)",
            "investigate damp and mould affecting children within 14 days",
            20, "calendar days", true, "critical"⟩]
      ∧ (calculateTimelineBreaches reported today "damp_mould" true).breaches.filter
          (fun b => b.severity == "impending") = []) := by
  subst h
  constructor
  · intro hlt
    have h1 : ¬ awaabsLawEnforcementDate ≤ reported + 20 := by omega
    unfold calculateTimelineBreaches
    simp [h1, hlt, Nat.add_sub_cancel_left, List.filter_append,
      apply_ite (List.filter (fun b : BreachRecord => b.severity == "impending")),
      apply_ite (List.filter (fun b : BreachRecord => b.severity == "critical")),
      apply_ite List.length]
  · intro hge
    unfold calculateTimelineBreaches
    simp [hge, Nat.add_sub_cancel_left, List.filter_append,
      apply_ite (List.filter (fun b : BreachRecord => b.severity == "impending")),
      apply_ite (List.filter (fun b : BreachRecord => b.severity == "critical"))]

/-- C4 — witness: at `reported = 0`, `today = 20` (before enforcement day
20388) the impending record is present; at `reported = 20400`,
`today = 20420` (after enforcement) the critical record is present. -/
theorem c4_vulnerable_hazard_gating_witness :
    ((calculateTimelineBreaches 0 20 "damp_mould" true).breaches.filter
        (fun b => b.severity == "impending")
      = [⟨"Social Housing Regulation Act 2023 (Awaab's Law)",
          "investigate damp and mould affecting children within 14 days (effective from October 27, 2025)",
          20, "calendar days", false, "impending"⟩]
      ∧ (calculateTimelineBreaches 0 20 "damp_mould" true).breaches.filter
          (fun b => b.severity == "critical") = []
      ∧ (calculateTimelineBreaches 0 20 "damp_mould" true).hasBreaches = true) ∧
    ((calculateTimelineBreaches 20400 20420 "damp_mould" true).breaches.filter
        (fun b => b.severity == "critical")
      = [⟨"Social Housing Regulation Act 2023 (Awaab's Law)",
          "investigate damp and mould affecting children within 14 days",
          20, "calendar days", true, "critical"⟩]
      ∧ (calculateTimelineBreaches 20400 20420 "damp_mould" true).breaches.filter
          (fun b => b.severity == "impending") = []) :=
  ⟨(c4_vulnerable_hazard_gating 0 20 rfl).1 (by decide),
   (c4_vulnerable_hazard_gating 20400 20420 rfl).2 (by decide)⟩

/-- C5 — acknowledgment-breach boundary: when the inclusive working-day count
from the reported date to "now" is exactly 5, no "acknowledge complaint
within 5 working days" breach is emitted (the condition is strictly greater
than 5); when it is 6, exactly that breach is emitted, with severity
`"moderate"`. -/
theorem c5_acknowledgment_boundary (reported today : Nat) (issueType : String)
    (children : Bool) :
    (calculateWorkingDays reported today = 5 →
      (calculateTimelineBreaches reported today issueType children).breaches.filter
          (fun b => b.requirement == "acknowledge complaint within 5 working days")
        = []) ∧
    (calculateWorkingDays reported today = 6 →
      (calculateTimelineBreaches reported today issueType children).breaches.filter
          (fun b => b.requirement == "acknowledge complaint within 5 working days")
        = [⟨"Housing Ombudsman Code Section 4.2",
            "acknowledge complaint within 5 working days", 6, "working days",
            true, "moderate"⟩]) := by
  unfold calculateTimelineBreaches
  constructor <;> intro h <;> rw [h] <;> split_ifs <;> simp_all <;>
    split_ifs <;> simp_all

/-- C5 — witness: days 4–8 are Monday–Friday of one week (5 working days
inclusive, no acknowledgment breach); days 4–11 span Monday to the next
Monday (6 working days inclusive, acknowledgment breach emitted). -/
theorem c5_acknowledgment_boundary_witness :
    ((calculateTimelineBreaches 4 8 "general" false).breaches.filter
        (fun b => b.requirement == "acknowledge complaint within 5 working days")
      = []) ∧
    ((calculateTimelineBreaches 4 11 "general" false).breaches.filter
        (fun b => b.requirement == "acknowledge complaint within 5 working days")
      = [⟨"Housing Ombudsman Code Section 4.2",
          "acknowledge complaint within 5 working days", 6, "working days",
          true, "moderate"⟩]) :=
  ⟨(c5_acknowledgment_boundary 4 8 "general" false).1 (by decide),
   (c5_acknowledgment_boundary 4 11 "general" false).2 (by decide)⟩

/-- C9 — invariant of every breach report: a record has `breached = false`
exactly when its severity is `"impending"` (every `"moderate"`, `"serious"`
and `"critical"` record has `breached = true`), and at most one `"impending"`
record appears in a single report. -/
theorem c9_breached_iff_impending (reported today : Nat) (issueType : String)
    (children : Bool) :
    (∀ b ∈ (calculateTimelineBreaches reported today issueType children).breaches,
        (b.breached = false ↔ b.severity = "impending")) ∧
    (calculateTimelineBreaches reported today issueType children).breaches.countP
        (fun b => b.severity == "impending") ≤ 1 := by
  constructor
  · intro b hb
    unfold calculateTimelineBreaches at hb
    simp only [List.mem_append] at hb
    rcases hb with (((hb | hb) | hb) | hb) | hb <;>
      split_ifs at hb <;>
      simp only [List.mem_singleton, List.not_mem_nil] at hb <;>
      subst hb <;> simp
  · unfold calculateTimelineBreaches
    simp only [List.countP_append]
    split_ifs <;> simp [List.countP_cons]

/-- C9 — witness: at `reported = 0`, `today = 20`, issue `"damp_mould"` with
children affected, the impending record satisfies the invariant and the
report contains at most one impending record. -/
theorem c9_breached_iff_impending_witness :
    ((⟨"Social Housing Regulation Act 2023 (Awaab's Law)",
        "investigate damp and mould affecting children within 14 days (effective from October 27, 2025)",
        20, "calendar days", false, "impending"⟩ : BreachRecord).breached = false
      ↔ (⟨"Social Housing Regulation Act 2023 (Awaab's Law)",
          "investigate damp and mould affecting children within 14 days (effective from October 27, 2025)",
          20, "calendar days", false, "impending"⟩ : BreachRecord).severity
          = "impending") ∧
    (calculateTimelineBreaches 0 20 "damp_mould" true).breaches.countP
        (fun b => b.severity == "impending") ≤ 1 :=
  ⟨(c9_breached_iff_impending 0 20 "damp_mould" true).1 _ (by decide),
   (c9_breached_iff_impending 0 20 "damp_mould" true).2⟩

/-- C10 — the ingestion pipeline silently skips a source whose extracted text
is shorter than 50 characters: the accumulated chunk set is exactly as if
that source were absent, so nothing from it reaches deduplication, embedding,
or upsert, and the remaining sources are processed unchanged. -/
theorem c10_short_text_skipped
    (pre post : List (List Char × Except (List Char) (List Char)))
    (src text : List Char) (h : text.length < 50) :
    collectChunks (pre ++ (src, Except.ok text) :: post)
      = collectChunks (pre ++ post) := by
  unfold collectChunks
  rw [List.foldl_append, List.foldl_append, List.foldl_cons]
  have hstep : ∀ acc : List SourceChunk,
      accumulateSource acc (src, Except.ok text) = acc := by
    intro acc
    unfold accumulateSource
    simp [h]
  rw [hstep]

/-- C10 — witness: a two-character source text is skipped, and the following
60-character source is processed exactly as if the short source were not
there. -/
theorem c10_short_text_skipped_witness :
    collectChunks [("s1".toList, Except.ok "hi".toList),
        ("s2".toList, Except.ok (List.replicate 60 'x'))]
      = collectChunks [("s2".toList, Except.ok (List.replicate 60 'x'))] :=
  c10_short_text_skipped [] [("s2".toList, Except.ok (List.replicate 60 'x'))]
    "s1".toList "hi".toList (by decide)

/-- C6 — the retrieval merge unions the primary result set with every
auxiliary result set, deduplicated by document id with the first occurrence
winning, and caps the merged list at `limit + 8` entries: provided each
individual result set carries distinct ids, the output is exactly the
first-occurrence-wins deduplication of the concatenation of all successful
result sets, truncated to `limit + 8`; in particular its ids are pairwise
distinct and its length is at most `limit + 8`. -/
theorem c6_retrieval_merge_dedup (p : List RetrievalDoc)
    (batches : List (Option (List RetrievalDoc))) (limit : Nat)
    (hp : (p.map RetrievalDoc.id).Nodup)
    (hb : ∀ b ∈ batches, batchIdsNodup b) :
    searchLegalKnowledge (Except.ok p) batches limit
        = (dedupById (p ++ (batches.filterMap (fun x => x)).flatten)).take
            (limit + 8)
      ∧ ((searchLegalKnowledge (Except.ok p) batches limit).map
            RetrievalDoc.id).Nodup
      ∧ (searchLegalKnowledge (Except.ok p) batches limit).length
          ≤ limit + 8 := by
  have hfold := foldl_mergeCrossRef_eq_dedup batches p hb
  have hsearch : searchLegalKnowledge (Except.ok p) batches limit
      = (batches.foldl mergeCrossRef p).take (limit + 8) := rfl
  have h0 : dedupByIdAux ([] : List RetrievalDoc) p = p := by
    rw [dedupByIdAux_eq_append_filter p [] hp]
    simp
  have hdd : dedupById (p ++ (batches.filterMap (fun x => x)).flatten)
      = dedupByIdAux p (batches.filterMap (fun x => x)).flatten := by
    rw [dedupById]
    have hsplit : dedupByIdAux ([] : List RetrievalDoc)
        (p ++ (batches.filterMap (fun x => x)).flatten)
        = dedupByIdAux (dedupByIdAux [] p)
            (batches.filterMap (fun x => x)).flatten := by
      simp [dedupByIdAux, List.foldl_append]
    rw [hsplit, h0]
  refine ⟨?_, ?_, ?_⟩
  · rw [hsearch, hfold, hdd]
  · rw [hsearch, hfold, List.map_take]
    exact (dedupByIdAux_nodup _ _ hp).sublist (List.take_sublist _ _)
  · rw [hsearch, List.length_take]
    exact min_le_left _ _

/-- C6 — witness: primary ids `{1, 2, 3}` and one auxiliary set with ids
`{2, 3, 4}` merge to exactly `[1, 2, 3, 4]`, with no duplicate ids, within
the `limit + 8` cap. -/
theorem c6_retrieval_merge_dedup_witness :
    (searchLegalKnowledge
        (Except.ok [⟨1, "a", none, none⟩, ⟨2, "b", none, none⟩,
          ⟨3, "c", none, none⟩])
        [some [⟨2, "b", none, none⟩, ⟨3, "c", none, none⟩,
          ⟨4, "d", none, none⟩]] 12).map RetrievalDoc.id = [1, 2, 3, 4]
      ∧ ((searchLegalKnowledge
          (Except.ok [⟨1, "a", none, none⟩, ⟨2, "b", none, none⟩,
            ⟨3, "c", none, none⟩])
          [some [⟨2, "b", none, none⟩, ⟨3, "c", none, none⟩,
            ⟨4, "d", none, none⟩]] 12).map RetrievalDoc.id).Nodup
      ∧ (searchLegalKnowledge
          (Except.ok [⟨1, "a", none, none⟩, ⟨2, "b", none, none⟩,
            ⟨3, "c", none, none⟩])
          [some [⟨2, "b", none, none⟩, ⟨3, "c", none, none⟩,
            ⟨4, "d", none, none⟩]] 12).length ≤ 12 + 8 := by
  obtain ⟨-, h2, h3⟩ := c6_retrieval_merge_dedup
    [⟨1, "a", none, none⟩, ⟨2, "b", none, none⟩, ⟨3, "c", none, none⟩]
    [some [⟨2, "b", none, none⟩, ⟨3, "c", none, none⟩, ⟨4, "d", none, none⟩]]
    12 (by decide) (by decide)
  exact ⟨by decide, h2, h3⟩

/-- C7 — counterexample.  The claim states that a failure of the primary
search leaves the auxiliary results in the merged output.  It does not: a
primary store error returns `[]` immediately (`route.ts` lines 613–616),
discarding the auxiliary set with id 1 — while the same auxiliary response
after an error-free empty primary search is kept. -/
theorem c7_counterexample :
    searchLegalKnowledge (Except.error "primary search failed")
        [some [⟨1, "doc", none, none⟩]] 12 = []
      ∧ searchLegalKnowledge (Except.ok [])
        [some [⟨1, "doc", none, none⟩]] 12 = [⟨1, "doc", none, none⟩] := by
  constructor <;> rfl

/-- C7 (amended) — failure isolation holds for auxiliary searches only: a
failed auxiliary search (`null` response) degrades to the empty set for that
query alone — the merged output is exactly as if that query were absent —
whereas a primary-search failure empties the entire retrieval, returning
`[]` without merging any auxiliary results. -/
theorem c7_failure_isolation :
    (∀ (p : List RetrievalDoc) (pre post : List (Option (List RetrievalDoc)))
        (limit : Nat),
      searchLegalKnowledge (Except.ok p) (pre ++ none :: post) limit
        = searchLegalKnowledge (Except.ok p) (pre ++ post) limit)
    ∧ (∀ (e : String) (batches : List (Option (List RetrievalDoc)))
        (limit : Nat),
      searchLegalKnowledge (Except.error e) batches limit = []) := by
  constructor
  · intro p pre post limit
    show ((pre ++ none :: post).foldl mergeCrossRef p).take (limit + 8)
        = ((pre ++ post).foldl mergeCrossRef p).take (limit + 8)
    rw [List.foldl_append, List.foldl_append, List.foldl_cons]
    rfl
  · intro e batches limit
    rfl

/-- C8 — issue classification returns exactly one of `"damp_mould"`,
`"repairs"`, `"heating"`, `"general"`, checked by keyword presence in that
priority order; in particular a text containing both a damp keyword and the
repairs keyword `"leak"` classifies as `"damp_mould"`. -/
theorem c8_issue_classification (text : List Char) :
    (classifyIssue text = "damp_mould" ∨ classifyIssue text = "repairs"
      ∨ classifyIssue text = "heating" ∨ classifyIssue text = "general")
    ∧ ((containsSub text "damp".toList || containsSub text "mould".toList
          || containsSub text "mold".toList) = true →
        classifyIssue text = "damp_mould")
    ∧ (containsSub text "damp".toList = true →
        containsSub text "leak".toList = true →
        classifyIssue text = "damp_mould")
    ∧ ((containsSub text "damp".toList || containsSub text "mould".toList
          || containsSub text "mold".toList) = false →
        (containsSub text "repair".toList || containsSub text "leak".toList
          || containsSub text "broken".toList) = true →
        classifyIssue text = "repairs")
    ∧ ((containsSub text "damp".toList || containsSub text "mould".toList
          || containsSub text "mold".toList) = false →
        (containsSub text "repair".toList || containsSub text "leak".toList
          || containsSub text "broken".toList) = false →
        (containsSub text "heating".toList || containsSub text "boiler".toList
          || containsSub text "cold".toList) = true →
        classifyIssue text = "heating")
    ∧ ((containsSub text "damp".toList || containsSub text "mould".toList
          || containsSub text "mold".toList) = false →
        (containsSub text "repair".toList || containsSub text "leak".toList
          || containsSub text "broken".toList) = false →
        (containsSub text "heating".toList || containsSub text "boiler".toList
          || containsSub text "cold".toList) = false →
        classifyIssue text = "general") := by
  refine ⟨?_, ?_, ?_, ?_, ?_, ?_⟩
  · unfold classifyIssue
    split_ifs <;> simp
  · intro h1
    unfold classifyIssue
    rw [if_pos h1]
  · intro h1 h2
    unfold classifyIssue
    rw [if_pos (show (containsSub text "damp".toList
        || containsSub text "mould".toList
        || containsSub text "mold".toList) = true by simp_all)]
  · intro h1 h2
    unfold classifyIssue
    rw [if_neg (show ¬ (containsSub text "damp".toList
        || containsSub text "mould".toList
        || containsSub text "mold".toList) = true by simp_all), if_pos h2]
  · intro h1 h2 h3
    unfold classifyIssue
    rw [if_neg (show ¬ (containsSub text "damp".toList
          || containsSub text "mould".toList
          || containsSub text "mold".toList) = true by simp_all),
      if_neg (show ¬ (containsSub text "repair".toList
          || containsSub text "leak".toList
          || containsSub text "broken".toList) = true by simp_all),
      if_pos h3]
  · intro h1 h2 h3
    unfold classifyIssue
    rw [if_neg (show ¬ (containsSub text "damp".toList
          || containsSub text "mould".toList
          || containsSub text "mold".toList) = true by simp_all),
      if_neg (show ¬ (containsSub text "repair".toList
          || containsSub text "leak".toList
          || containsSub text "broken".toList) = true by simp_all),
      if_neg (show ¬ (containsSub text "heating".toList
          || containsSub text "boiler".toList
          || containsSub text "cold".toList) = true by simp_all)]

/-- C8 — witness: `"damp leak"` (both a damp and a repairs keyword)
classifies as `"damp_mould"`; `"the boiler leaks"` as `"repairs"` (repairs
checked before heating); `"cold boiler"` as `"heating"`; `"hello"` as
`"general"`. -/
theorem c8_issue_classification_witness :
    classifyIssue "damp leak".toList = "damp_mould"
      ∧ classifyIssue "the boiler leaks".toList = "repairs"
      ∧ classifyIssue "cold boiler".toList = "heating"
      ∧ classifyIssue "hello".toList = "general" :=
  ⟨(c8_issue_classification "damp leak".toList).2.2.1 (by decide) (by decide),
   (c8_issue_classification "the boiler leaks".toList).2.2.2.1 (by decide)
     (by decide),
   (c8_issue_classification "cold boiler".toList).2.2.2.2.1 (by decide)
     (by decide) (by decide),
   (c8_issue_classification "hello".toList).2.2.2.2.2 (by decide) (by decide)
     (by decide)⟩

end HousingBot
